import Mathlib

/-
  Verification development for the bluray-converter task lifecycle core.

  The Python sources are shallowly embedded as pure Lean functions:
  - database rows become the `Task` structure; the task store is a `List Task`;
  - timestamps are naturals passed explicitly as a `now` argument
    (the Python code reads `datetime.now()`);
  - `await f(x)` is modelled as the plain application `f x`;
  - external collaborators (the file relocation move, the worker HTTP send)
    are modelled by a boolean outcome supplied by the environment;
  - floating point payload fields (progress percent, file size, processing
    time) are modelled as integers / naturals: no claim depends on
    fractional values;
  - write-only side channels (Telegram messages, the processing_history and
    errors tables, log lines) are not part of the task state and are omitted.
-/

namespace BlurayConverter

/-- Task status enum, from nas-services/watcher/db_manager.py (class TaskStatus). -/
inductive TaskStatus where
  | pending
  | sent
  | processing
  | completed
  | failed
  | retrying
deriving DecidableEq, Repr

/-- One row of the tasks table, from the CREATE TABLE statement in
nas-services/watcher/db_manager.py. The `progressPercent` field is not a
column of the table; it is the stored progress value the spec data model
lists and the webhook writes through the (missing) update_task_progress
method, so it is carried here as part of the task state. -/
structure Task where
  id : Nat
  movieName : String
  sourcePath : String
  status : TaskStatus
  priority : Int
  attempts : Nat
  createdAt : Nat
  updatedAt : Nat
  processingStartedAt : Option Nat
  processingCompletedAt : Option Nat
  errorMessage : Option String
  fileSizeBytes : Option Nat
  processingTimeSeconds : Option Nat
  macWorkerId : Option String
  progressPercent : Option Int
deriving DecidableEq, Repr

/-- DatabaseManager.update_task_status from nas-services/watcher/db_manager.py.
Sets status and refreshes updated_at; copies the optional fields when given;
sets processing_started_at whenever the new status is `processing`, else sets
processing_completed_at whenever it is `completed` or `failed`; increments
attempts whenever the new status is `retrying`. -/
def updateTaskStatus (t : Task) (status : TaskStatus) (now : Nat)
    (errorMessage : Option String) (processingTime : Option Nat)
    (fileSize : Option Nat) (macWorkerId : Option String) : Task :=
  let t1 : Task := { t with status := status, updatedAt := now }
  let t2 : Task :=
    match errorMessage with
    | some m => { t1 with errorMessage := some m }
    | none => t1
  let t3 : Task :=
    match processingTime with
    | some p => { t2 with processingTimeSeconds := some p }
    | none => t2
  let t4 : Task :=
    match fileSize with
    | some s => { t3 with fileSizeBytes := some s }
    | none => t3
  let t5 : Task :=
    match macWorkerId with
    | some w => { t4 with macWorkerId := some w }
    | none => t4
  let t6 : Task :=
    if status = TaskStatus.processing then
      { t5 with processingStartedAt := some now }
    else if status = TaskStatus.completed ∨ status = TaskStatus.failed then
      { t5 with processingCompletedAt := some now }
    else t5
  if status = TaskStatus.retrying then
    { t6 with attempts := t6.attempts + 1 }
  else t6

/-- Modelled from the spec: the DatabaseManager method increment_task_attempts
called by the webhook and the watcher is absent from src; spec section 4.1
lists increment_attempts(id) as an explicit operation, and section 4.4 says
the failed path increments attempts. It adds exactly one to the counter. -/
def incrementTaskAttempts (t : Task) : Task :=
  { t with attempts := t.attempts + 1 }

/-- Modelled from the spec: the DatabaseManager method reset_task_attempts
called by the restart route is absent from src; spec sections 4.1 and 6 say an
administrative restart resets attempts. It clears the counter to zero. -/
def resetTaskAttempts (t : Task) : Task :=
  { t with attempts := 0 }

/-- Modelled from the spec: the DatabaseManager method set_processing_started
called by the webhook is absent from src; per spec section 3 it records the
time processing started. It stores the given timestamp. -/
def setProcessingStarted (t : Task) (now : Nat) : Task :=
  { t with processingStartedAt := some now }

/-- Modelled from the spec: the DatabaseManager method set_processing_completed
called by the webhook is absent from src; per spec section 3 it records the
time processing completed. It stores the given timestamp. -/
def setProcessingCompleted (t : Task) (now : Nat) : Task :=
  { t with processingCompletedAt := some now }

/-- Modelled from the spec: the DatabaseManager method update_task_progress
called by the webhook is absent from src; per spec sections 3 and 4.2 it
updates the stored progress value. -/
def updateTaskProgress (t : Task) (p : Int) : Task :=
  { t with progressPercent := some p }

/-- Modelled from the spec: the DatabaseManager method record_error called by
the webhook is absent from src; per spec section 4.4 the failure paths record
the error message on the task. -/
def recordError (t : Task) (msg : String) : Task :=
  { t with errorMessage := some msg }

/-- StatusUpdateRequest from nas-services/api/webhook.py. -/
structure StatusUpdateRequest where
  taskId : Nat
  status : String
  sourceFolder : Option String
  tempFile : Option String
  processingTime : Option Nat
  fileSizeMb : Option Nat
  error : Option String
  progressPercent : Option Int
deriving DecidableEq, Repr

/-- handle_processing_status from nas-services/api/webhook.py. The argument
`t` is the task row fetched by receive_status_update before dispatching, so
the processing_started_at guard reads the pre-update row. The Telegram
milestone message is a side channel and is omitted. -/
def handleProcessingStatus (t : Task) (u : StatusUpdateRequest) (now : Nat) : Task :=
  let t1 := updateTaskStatus t TaskStatus.processing now none none none none
  let t2 := if t.processingStartedAt = none then setProcessingStarted t1 now else t1
  match u.progressPercent with
  | some p => updateTaskProgress t2 p
  | none => t2

/-- Result of one run of the completion handler: the resulting task row and
whether the external file relocation collaborator (move_to_processed) was
invoked during the run. -/
structure CompletionResult where
  task : Task
  relocInvoked : Bool
deriving DecidableEq, Repr

/-- handle_completion_status from nas-services/api/webhook.py. `relocOk` is
the outcome of the external move_to_processed call, decided by the
environment. With no temp_file a ValueError is raised before the relocation
is invoked; a failed relocation raises; either exception lands in the except
block, which marks the task failed and records a post-processing error (the
subsequent re-raise is swallowed by the background task runner). On success
the task is marked completed; the source folder deletion, the processing
history insert and the Telegram messages are side channels and are omitted. -/
def handleCompletionStatus (t : Task) (u : StatusUpdateRequest) (relocOk : Bool)
    (now : Nat) : CompletionResult :=
  match u.tempFile with
  | none =>
      let t1 := updateTaskStatus t TaskStatus.failed now none none none none
      let t2 := recordError t1 "Post-processing error: No temp_file provided in completion update"
      { task := t2, relocInvoked := false }
  | some _ =>
      if relocOk then
        let t1 := updateTaskStatus t TaskStatus.completed now none none none none
        let t2 := setProcessingCompleted t1 now
        { task := t2, relocInvoked := true }
      else
        let t1 := updateTaskStatus t TaskStatus.failed now none none none none
        let t2 := recordError t1 "Post-processing error: Failed to move processed file"
        { task := t2, relocInvoked := true }

/-- handle_failed_status from nas-services/api/webhook.py. Marks the task
failed, records the error, increments attempts, then consults the retry
guard `task.attempts < 2` on the row fetched before any update; when it
holds, the task is moved through retrying (which increments attempts again
inside updateTaskStatus) and then back to pending. The processing history
insert and the Telegram message are side channels and are omitted. -/
def handleFailedStatus (t : Task) (u : StatusUpdateRequest) (now : Nat) : Task :=
  let t1 := updateTaskStatus t TaskStatus.failed now none none none none
  let t2 := recordError t1 (u.error.getD "Unknown error")
  let t3 := incrementTaskAttempts t2
  if t.attempts < 2 then
    let t4 := updateTaskStatus t3 TaskStatus.retrying now none none none none
    updateTaskStatus t4 TaskStatus.pending now none none none none
  else t3

/-- DatabaseManager.get_task_by_id / the get_task_details lookup used by the
webhook and the routes: fetch the row with the given id. -/
def getTaskDetails (store : List Task) (id : Nat) : Option Task :=
  store.find? (fun t => t.id == id)

/-- Writing an updated row back to the store: every row with the same id is
replaced (ids are the table primary key, so at most one row matches). -/
def setTask (store : List Task) (t : Task) : List Task :=
  store.map (fun x => if x.id == t.id then t else x)

/-- Result of one call of the status webhook endpoint: the task store after
the update (including the background completion work), whether the HTTP
response reported success, and whether the file relocation collaborator was
invoked while handling the call. -/
structure ReceiveResult where
  store : List Task
  httpOk : Bool
  relocInvoked : Bool
deriving DecidableEq, Repr

/-- receive_status_update from nas-services/api/webhook.py. Validates only
that the task exists and that the status string is one of processing,
completed or failed, then dispatches to the matching handler; the completed
handler runs as a background task after the 200 response, so httpOk is true
for a completed update regardless of the handler outcome. There is no check
of the current status of the task before dispatching. -/
def receiveStatusUpdate (store : List Task) (u : StatusUpdateRequest)
    (relocOk : Bool) (now : Nat) : ReceiveResult :=
  match getTaskDetails store u.taskId with
  | none => { store := store, httpOk := false, relocInvoked := false }
  | some task =>
      if u.status = "processing" then
        { store := setTask store (handleProcessingStatus task u now),
          httpOk := true, relocInvoked := false }
      else if u.status = "completed" then
        let r := handleCompletionStatus task u relocOk now
        { store := setTask store r.task, httpOk := true, relocInvoked := r.relocInvoked }
      else if u.status = "failed" then
        { store := setTask store (handleFailedStatus task u now),
          httpOk := true, relocInvoked := false }
      else
        { store := store, httpOk := false, relocInvoked := false }

/-- worker_shutdown_notification from nas-services/api/webhook.py: every task
whose status is processing is reset to pending through update_task_status;
tasks in any other status, including sent, are left untouched. -/
def workerShutdownSweep (store : List Task) (now : Nat) : List Task :=
  store.map (fun t =>
    if t.status = TaskStatus.processing then
      updateTaskStatus t TaskStatus.pending now none none none none
    else t)

/-- The ORDER BY priority DESC, created_at ASC ordering of
DatabaseManager.get_pending_tasks in nas-services/watcher/db_manager.py. -/
def pendingOrder (a b : Task) : Prop :=
  b.priority < a.priority ∨ (a.priority = b.priority ∧ a.createdAt ≤ b.createdAt)

instance : DecidableRel pendingOrder := fun a b => by
  unfold pendingOrder
  infer_instance

/-- DatabaseManager.get_pending_tasks from nas-services/watcher/db_manager.py:
SELECT * FROM tasks WHERE status = pending ORDER BY priority DESC,
created_at ASC, with an optional LIMIT. -/
def getPendingTasks (store : List Task) (limit : Option Nat) : List Task :=
  match limit with
  | some n =>
      ((store.filter (fun t => t.status == TaskStatus.pending)).insertionSort pendingOrder).take n
  | none =>
      (store.filter (fun t => t.status == TaskStatus.pending)).insertionSort pendingOrder

/-- One iteration of the dispatch loop in WatcherService.process_pending_tasks
(nas-services/watcher/main.py): the task is set to sent before sending; when
MacClient.send_task reports failure the attempts counter is incremented and
the task is set back to pending. The send outcome `sendOk` is decided by the
environment (send_task converts every transport error and the worker busy 429
response into False). There is no maximum-attempts check on this path. -/
def dispatchTask (t : Task) (sendOk : Bool) (now : Nat) : Task :=
  let t1 := updateTaskStatus t TaskStatus.sent now none none none none
  if sendOk then t1
  else
    let t2 := incrementTaskAttempts t1
    updateTaskStatus t2 TaskStatus.pending now none none none none

/-- WatcherService.process_pending_tasks from nas-services/watcher/main.py:
fetch the pending tasks limited by MAX_CONCURRENT_TASKS and dispatch each.
`sendOk` gives the environment-decided delivery outcome per task id. -/
def processPendingTasks (store : List Task) (maxConcurrent : Nat)
    (sendOk : Nat → Bool) (now : Nat) : List Task :=
  (getPendingTasks store (some maxConcurrent)).foldl
    (fun s t => setTask s (dispatchTask t (sendOk t.id) now)) store

/-- restart_task from nas-services/api/routes.py: 404 when the task is
unknown, 400 unless its status is completed or failed, otherwise the task is
set to pending and its attempts counter is reset. The boolean is the success
flag; on failure the store is returned unchanged. -/
def restartTask (store : List Task) (id : Nat) (now : Nat) : Bool × List Task :=
  match getTaskDetails store id with
  | none => (false, store)
  | some t =>
      if t.status = TaskStatus.completed ∨ t.status = TaskStatus.failed then
        let t1 := updateTaskStatus t TaskStatus.pending now none none none none
        let t2 := resetTaskAttempts t1
        (true, setTask store t2)
      else (false, store)

/-- DatabaseManager.delete_task from nas-services/watcher/db_manager.py:
deletes the row with the given id (and its error records, which live outside
the task store); returns False when no row matched. -/
def dbDeleteTask (store : List Task) (id : Nat) : Bool × List Task :=
  match getTaskDetails store id with
  | none => (false, store)
  | some _ => (true, store.filter (fun t => !(t.id == id)))

/-- delete_task from nas-services/api/routes.py: 404 when the task is
unknown, 400 when its status is processing (the row is left in place),
otherwise the row is deleted. The boolean is the success flag. -/
def deleteTaskRoute (store : List Task) (id : Nat) : Bool × List Task :=
  match getTaskDetails store id with
  | none => (false, store)
  | some t =>
      if t.status = TaskStatus.processing then (false, store)
      else dbDeleteTask store id

/-- The jobs SchedulerService.start registers in
nas-services/scheduler/scheduler.py. -/
inductive ScheduledJob where
  | directoryScan
  | databaseCleanup
  | healthCheck
deriving DecidableEq, Repr

/-- SchedulerService.start from nas-services/scheduler/scheduler.py adds
exactly these three jobs: the directory scan, the weekly database cleanup and
the health check. No job scans for stale sent or processing tasks. -/
def schedulerJobs : List ScheduledJob :=
  [ScheduledJob.directoryScan, ScheduledJob.databaseCleanup, ScheduledJob.healthCheck]

/-- One observable transition of the task store: a status callback handled by
the webhook (the worker and the network deliver callbacks asynchronously,
unordered and possibly duplicated, and the endpoint applies any callback for
an existing task), one dispatch cycle of the watcher, or the worker shutdown
sweep. -/
inductive SysStep : List Task → List Task → Prop where
  | statusReport (s : List Task) (u : StatusUpdateRequest) (relocOk : Bool) (now : Nat) :
      SysStep s (receiveStatusUpdate s u relocOk now).store
  | dispatchCycle (s : List Task) (maxConcurrent : Nat) (sendOk : Nat → Bool) (now : Nat) :
      SysStep s (processPendingTasks s maxConcurrent sendOk now)
  | shutdownSweep (s : List Task) (now : Nat) :
      SysStep s (workerShutdownSweep s now)

/-- A store is reachable from an initial store by any sequence of system
steps. -/
def ReachableSys (init s : List Task) : Prop :=
  Relation.ReflTransGen SysStep init s

/-! ### Concrete fixtures used to evaluate the embedded code -/

/-- A freshly created task row, as DatabaseManager.create_task inserts it:
status pending, attempts 0, no timestamps or error recorded yet. -/
def baseTask : Task where
  id := 1
  movieName := "Movie A"
  sourcePath := "/volume1/video/BluRayRAW/Movie A"
  status := TaskStatus.pending
  priority := 0
  attempts := 0
  createdAt := 0
  updatedAt := 0
  processingStartedAt := none
  processingCompletedAt := none
  errorMessage := none
  fileSizeBytes := none
  processingTimeSeconds := none
  macWorkerId := none
  progressPercent := none

/-- A status callback payload with the given task id, status string, temp
file, progress and error fields. -/
def mkUpdate (taskId : Nat) (status : String) (tempFile : Option String)
    (progress : Option Int) (error : Option String) : StatusUpdateRequest where
  taskId := taskId
  status := status
  sourceFolder := none
  tempFile := tempFile
  processingTime := none
  fileSizeMb := none
  error := error
  progressPercent := progress

/-- A task mid-processing with its start timestamp recorded at time 5. -/
def startedTask : Task :=
  { baseTask with
      status := TaskStatus.processing,
      processingStartedAt := some 5,
      updatedAt := 5 }

/-- A second task row, for two-task stores. -/
def taskB : Task :=
  { baseTask with
      id := 2,
      movieName := "Movie B",
      sourcePath := "/volume1/video/BluRayRAW/Movie B" }

/-- The two-task store both claims about reachable states start from: two
freshly created pending tasks. -/
def c8Init : List Task := [baseTask, taskB]

/-- The store after a processing callback for task 1. -/
def c8Mid : List Task :=
  (receiveStatusUpdate c8Init (mkUpdate 1 "processing" none none none) true 31).store

/-- The store after a further processing callback for task 2. -/
def c8Final : List Task :=
  (receiveStatusUpdate c8Mid (mkUpdate 2 "processing" none none none) true 32).store

/-! ### Claim theorems -/

/-- C10: for every task whose status is processing, the delete operation
fails and leaves the task store unchanged; deletion succeeds, removing the
row, exactly when the task exists and is not in processing status. -/
theorem c10_delete_task_policy (store : List Task) (id : Nat) :
    (∀ t, getTaskDetails store id = some t → t.status = TaskStatus.processing →
      deleteTaskRoute store id = (false, store)) ∧
    ((deleteTaskRoute store id).1 = true ↔
      ∃ t, getTaskDetails store id = some t ∧ t.status ≠ TaskStatus.processing) ∧
    ((deleteTaskRoute store id).1 = true →
      getTaskDetails (deleteTaskRoute store id).2 id = none) ∧
    ((deleteTaskRoute store id).1 = false → (deleteTaskRoute store id).2 = store) := by
  have hremoved : getTaskDetails (store.filter (fun t => !(t.id == id))) id = none := by
    unfold getTaskDetails
    rw [List.find?_eq_none]
    intro x hx
    have hfilter := (List.mem_filter.mp hx).2
    simp only [Bool.not_eq_eq_eq_not, Bool.not_true] at hfilter
    simp [hfilter]
  cases hfind : getTaskDetails store id with
  | none =>
      refine ⟨?_, ?_, ?_, ?_⟩
      · intro t ht
        exact Option.noConfusion ht
      · simp [deleteTaskRoute, hfind]
      · simp [deleteTaskRoute, hfind]
      · simp [deleteTaskRoute, hfind]
  | some t =>
      by_cases hstatus : t.status = TaskStatus.processing
      · refine ⟨?_, ?_, ?_, ?_⟩
        · intro t' ht' _
          cases ht'
          simp [deleteTaskRoute, hfind, hstatus]
        · constructor
          · intro habs
            simp [deleteTaskRoute, hfind, hstatus] at habs
          · rintro ⟨t', ht', hne⟩
            cases ht'
            exact absurd hstatus hne
        · intro habs
          simp [deleteTaskRoute, hfind, hstatus] at habs
        · intro _
          simp [deleteTaskRoute, hfind, hstatus]
      · refine ⟨?_, ?_, ?_, ?_⟩
        · intro t' ht' hproc
          cases ht'
          exact absurd hproc hstatus
        · constructor
          · intro _
            exact ⟨t, rfl, hstatus⟩
          · intro _
            simp [deleteTaskRoute, hfind, hstatus, dbDeleteTask]
        · intro _
          simpa [deleteTaskRoute, hfind, hstatus, dbDeleteTask] using hremoved
        · intro habs
          simp [deleteTaskRoute, hfind, hstatus, dbDeleteTask] at habs

/-- C10 witness: on a concrete store holding one processing task, deletion
fails and leaves the store unchanged; on a store holding one completed task,
deletion succeeds and removes the row. -/
theorem c10_delete_task_policy_witness :
    (deleteTaskRoute [{ baseTask with status := TaskStatus.processing }] 1 =
      (false, [{ baseTask with status := TaskStatus.processing }])) ∧
    ((deleteTaskRoute [{ baseTask with status := TaskStatus.completed }] 1).1 = true) ∧
    (getTaskDetails (deleteTaskRoute [{ baseTask with status := TaskStatus.completed }] 1).2 1 = none) := by
  refine ⟨?_, ?_, ?_⟩
  · exact (c10_delete_task_policy [{ baseTask with status := TaskStatus.processing }] 1).1
      { baseTask with status := TaskStatus.processing } (by decide) (by decide)
  · exact ((c10_delete_task_policy [{ baseTask with status := TaskStatus.completed }] 1).2.1).mpr
      ⟨{ baseTask with status := TaskStatus.completed }, by decide, by decide⟩
  · exact (c10_delete_task_policy [{ baseTask with status := TaskStatus.completed }] 1).2.2.1
      (((c10_delete_task_policy [{ baseTask with status := TaskStatus.completed }] 1).2.1).mpr
        ⟨{ baseTask with status := TaskStatus.completed }, by decide, by decide⟩)

/-- C9: evaluation at the failing input. A task already in processing with
processing_started_at recorded at time 5 receives a further processing report
at time 9; the embedded handler overwrites the start timestamp with 9,
because update_task_status in db_manager.py unconditionally sets
processing_started_at whenever the new status is processing, defeating the
once-only guard in the webhook. The claim (set exactly once, later updates
leave it unchanged) is violated. -/
theorem c9_processing_started_at_overwritten :
    startedTask.processingStartedAt = some 5 ∧
    (handleProcessingStatus startedTask
      (mkUpdate 1 "processing" none none none) 9).processingStartedAt = some 9 := by
  decide

/-- C5 counterexample: a pending task whose attempts counter already equals
the configured maximum of 3 total tries suffers a delivery failure; the
dispatcher returns it to pending with attempts 4 instead of transitioning it
to failed, contradicting the claim. -/
theorem c5_dispatch_failure_counterexample :
    (dispatchTask { baseTask with attempts := 3 } false 15).status = TaskStatus.pending ∧
    (dispatchTask { baseTask with attempts := 3 } false 15).status ≠ TaskStatus.failed ∧
    (dispatchTask { baseTask with attempts := 3 } false 15).attempts = 4 := by
  decide

/-- C5 amended: for every pending task the dispatcher attempts to deliver,
a delivery failure increments attempts and returns the task to pending
unconditionally; the dispatcher performs no maximum-attempts check, so even
a task at or beyond the configured maximum returns to pending rather than
transitioning to failed. A successful delivery marks the task sent and
leaves attempts unchanged. -/
theorem c5_dispatch_failure_amended (t : Task) (now : Nat) :
    ((dispatchTask t false now).status = TaskStatus.pending ∧
      (dispatchTask t false now).attempts = t.attempts + 1) ∧
    ((dispatchTask t true now).status = TaskStatus.sent ∧
      (dispatchTask t true now).attempts = t.attempts) := by
  refine ⟨⟨?_, ?_⟩, ?_, ?_⟩ <;>
    simp [dispatchTask, updateTaskStatus, incrementTaskAttempts]

/-- C6 counterexample: a progress report (a processing status callback
carrying progress_percent 50) for a task whose status is completed is not
ignored: the endpoint acknowledges it, sets the task back to processing and
stores the progress value, contradicting the claim that progress is accepted
only while status is processing and never changes status. -/
theorem c6_progress_report_counterexample :
    (receiveStatusUpdate [{ baseTask with status := TaskStatus.completed }]
      (mkUpdate 1 "processing" none (some 50) none) true 21).httpOk = true ∧
    (getTaskDetails (receiveStatusUpdate [{ baseTask with status := TaskStatus.completed }]
      (mkUpdate 1 "processing" none (some 50) none) true 21).store 1).map Task.status =
      some TaskStatus.processing ∧
    (getTaskDetails (receiveStatusUpdate [{ baseTask with status := TaskStatus.completed }]
      (mkUpdate 1 "processing" none (some 50) none) true 21).store 1).map Task.progressPercent =
      some (some 50) := by
  decide

/-- C6 amended: a progress report is carried by a processing status callback,
and the handler applies it to any existing task regardless of its current
status: the status is always set to processing and the progress value is
stored when provided; there is no guard that ignores progress for tasks not
in processing. -/
theorem c6_progress_report_amended (t : Task) (u : StatusUpdateRequest) (now : Nat)
    (p : Int) (h : u.progressPercent = some p) :
    (handleProcessingStatus t u now).status = TaskStatus.processing ∧
    (handleProcessingStatus t u now).progressPercent = some p := by
  by_cases hstart : t.processingStartedAt = none <;>
    simp [handleProcessingStatus, h, hstart, updateTaskStatus, setProcessingStarted,
      updateTaskProgress]

/-- C6 amended witness: a completed task with stored start timestamp receives
a progress report of 50; the handler sets it to processing and stores 50. -/
theorem c6_progress_report_amended_witness :
    (mkUpdate 1 "processing" none (some 50) none).progressPercent = some 50 ∧
    (handleProcessingStatus { baseTask with status := TaskStatus.completed }
      (mkUpdate 1 "processing" none (some 50) none) 21).status = TaskStatus.processing ∧
    (handleProcessingStatus { baseTask with status := TaskStatus.completed }
      (mkUpdate 1 "processing" none (some 50) none) 21).progressPercent = some 50 := by
  refine ⟨rfl, ?_⟩
  exact c6_progress_report_amended { baseTask with status := TaskStatus.completed }
    (mkUpdate 1 "processing" none (some 50) none) 21 50 rfl

/-- C1 counterexample: the same completed callback is submitted twice for a
processing task holding a temp file. The endpoint never checks that the
current status is already terminal: the second submission invokes the file
relocation collaborator again (two invocations in total, not at most one),
and because the temp file was already moved the second relocation fails and
the end state is failed, not the end state of a single submission
(completed). -/
theorem c1_duplicate_completed_counterexample :
    (receiveStatusUpdate [startedTask]
      (mkUpdate 1 "completed" (some "Movie A.mkv") none none) true 10).relocInvoked = true ∧
    (getTaskDetails (receiveStatusUpdate [startedTask]
      (mkUpdate 1 "completed" (some "Movie A.mkv") none none) true 10).store 1).map Task.status =
      some TaskStatus.completed ∧
    (receiveStatusUpdate (receiveStatusUpdate [startedTask]
        (mkUpdate 1 "completed" (some "Movie A.mkv") none none) true 10).store
      (mkUpdate 1 "completed" (some "Movie A.mkv") none none) false 11).relocInvoked = true ∧
    (getTaskDetails (receiveStatusUpdate (receiveStatusUpdate [startedTask]
        (mkUpdate 1 "completed" (some "Movie A.mkv") none none) true 10).store
      (mkUpdate 1 "completed" (some "Movie A.mkv") none none) false 11).store 1).map Task.status =
      some TaskStatus.failed := by
  decide

/-- C1 amended: submitting the same completed callback twice is not an
idempotent no-op. The completion handler invokes the file relocation
collaborator on every submission whose payload carries a temp file (so two
submissions invoke it twice); neither submission increments attempts; and
when the second relocation fails (the temp file was already moved) the
second submission drives the task to failed instead of leaving the end
state of a single submission. -/
theorem c1_duplicate_completed_amended (t : Task) (u : StatusUpdateRequest)
    (f : String) (h : u.tempFile = some f) (now1 now2 : Nat) :
    (handleCompletionStatus t u true now1).relocInvoked = true ∧
    (handleCompletionStatus t u true now1).task.status = TaskStatus.completed ∧
    (handleCompletionStatus t u true now1).task.attempts = t.attempts ∧
    (handleCompletionStatus (handleCompletionStatus t u true now1).task u false now2).relocInvoked
      = true ∧
    (handleCompletionStatus (handleCompletionStatus t u true now1).task u false now2).task.status
      = TaskStatus.failed ∧
    (handleCompletionStatus (handleCompletionStatus t u true now1).task u false now2).task.attempts
      = t.attempts := by
  simp [handleCompletionStatus, h, updateTaskStatus, setProcessingCompleted, recordError]

/-- C1 amended witness: concrete double submission of a completed callback
for task 1 with temp file Movie A.mkv. -/
theorem c1_duplicate_completed_amended_witness :
    (mkUpdate 1 "completed" (some "Movie A.mkv") none none).tempFile = some "Movie A.mkv" ∧
    (handleCompletionStatus startedTask
      (mkUpdate 1 "completed" (some "Movie A.mkv") none none) true 10).relocInvoked = true ∧
    (handleCompletionStatus (handleCompletionStatus startedTask
        (mkUpdate 1 "completed" (some "Movie A.mkv") none none) true 10).task
      (mkUpdate 1 "completed" (some "Movie A.mkv") none none) false 11).task.status
      = TaskStatus.failed := by
  refine ⟨rfl, ?_, ?_⟩
  · exact (c1_duplicate_completed_amended startedTask
      (mkUpdate 1 "completed" (some "Movie A.mkv") none none) "Movie A.mkv" rfl 10 11).1
  · exact (c1_duplicate_completed_amended startedTask
      (mkUpdate 1 "completed" (some "Movie A.mkv") none none) "Movie A.mkv" rfl 10 11).2.2.2.2.1

/-- C2: evaluation at the failing input. A fresh task (attempts 0) in
processing has its failure reported twice. The first report grants a retry
but raises attempts from 0 to 2, because handle_failed_status calls the
explicit attempts increment and then moves the task through retrying, and
update_task_status increments attempts again for the retrying status. The
second report therefore finds attempts 2, grants no retry, and leaves the
task failed with attempts 3: only 2 total tries (initial plus 1 retry),
not the claimed 3 total tries (initial plus 2 retries). An administrative
restart then resets attempts to 0 and re-enters pending, as the claim says. -/
theorem c2_retry_budget_eval :
    (handleFailedStatus { baseTask with status := TaskStatus.processing }
      (mkUpdate 1 "failed" none none (some "ffmpeg crashed")) 20).status
      = TaskStatus.pending ∧
    (handleFailedStatus { baseTask with status := TaskStatus.processing }
      (mkUpdate 1 "failed" none none (some "ffmpeg crashed")) 20).attempts = 2 ∧
    (handleFailedStatus (handleFailedStatus { baseTask with status := TaskStatus.processing }
        (mkUpdate 1 "failed" none none (some "ffmpeg crashed")) 20)
      (mkUpdate 1 "failed" none none (some "ffmpeg crashed")) 30).status
      = TaskStatus.failed ∧
    (handleFailedStatus (handleFailedStatus { baseTask with status := TaskStatus.processing }
        (mkUpdate 1 "failed" none none (some "ffmpeg crashed")) 20)
      (mkUpdate 1 "failed" none none (some "ffmpeg crashed")) 30).attempts = 3 ∧
    (restartTask [handleFailedStatus (handleFailedStatus
        { baseTask with status := TaskStatus.processing }
        (mkUpdate 1 "failed" none none (some "ffmpeg crashed")) 20)
      (mkUpdate 1 "failed" none none (some "ffmpeg crashed")) 30] 1 40).1 = true ∧
    (getTaskDetails (restartTask [handleFailedStatus (handleFailedStatus
        { baseTask with status := TaskStatus.processing }
        (mkUpdate 1 "failed" none none (some "ffmpeg crashed")) 20)
      (mkUpdate 1 "failed" none none (some "ffmpeg crashed")) 30] 1 40).2 1).map Task.status
      = some TaskStatus.pending ∧
    (getTaskDetails (restartTask [handleFailedStatus (handleFailedStatus
        { baseTask with status := TaskStatus.processing }
        (mkUpdate 1 "failed" none none (some "ffmpeg crashed")) 20)
      (mkUpdate 1 "failed" none none (some "ffmpeg crashed")) 30] 1 40).2 1).map Task.attempts
      = some 0 := by
  decide

/-- C3: evaluation at the failing inputs. A single failure report on a fresh
task (attempts 0) raises attempts by 2, not by exactly 1 (the explicit
increment plus the retrying increment inside update_task_status); and the
completion path whose relocation fails raises attempts by 0, not 1. Both
contradict the claim that each failure-path transition increments attempts
by exactly 1. -/
theorem c3_attempts_increment_eval :
    (handleFailedStatus { baseTask with status := TaskStatus.processing }
      (mkUpdate 1 "failed" none none (some "ffmpeg crashed")) 20).attempts
      = ({ baseTask with status := TaskStatus.processing } : Task).attempts + 2 ∧
    (handleCompletionStatus startedTask
      (mkUpdate 1 "completed" (some "Movie A.mkv") none none) false 12).task.attempts
      = startedTask.attempts := by
  decide

/-- C4 counterexample: a completed callback whose relocation fails marks the
task failed and records the relocation error, but does not increment
attempts, contradicting the claim that attempts is incremented on this
failure path. -/
theorem c4_relocation_failure_counterexample :
    (handleCompletionStatus startedTask
      (mkUpdate 1 "completed" (some "Movie A.mkv") none none) false 12).task.status
      = TaskStatus.failed ∧
    (handleCompletionStatus startedTask
      (mkUpdate 1 "completed" (some "Movie A.mkv") none none) false 12).task.errorMessage
      = some "Post-processing error: Failed to move processed file" ∧
    (handleCompletionStatus startedTask
      (mkUpdate 1 "completed" (some "Movie A.mkv") none none) false 12).task.attempts
      ≠ startedTask.attempts + 1 := by
  decide

/-- C4 amended: for every completed callback in which the relocation fails or
the temp file is missing, the task transitions to failed and the error is
recorded, and the task is never left completed (the completed status is
reached only when the relocation succeeded); however attempts is left
unchanged on this path, not incremented. -/
theorem c4_relocation_failure_amended (t : Task) (u : StatusUpdateRequest)
    (relocOk : Bool) (now : Nat) :
    (u.tempFile = none →
      (handleCompletionStatus t u relocOk now).task.status = TaskStatus.failed ∧
      (handleCompletionStatus t u relocOk now).task.errorMessage.isSome = true ∧
      (handleCompletionStatus t u relocOk now).task.attempts = t.attempts ∧
      (handleCompletionStatus t u relocOk now).relocInvoked = false) ∧
    (∀ f, u.tempFile = some f →
      (handleCompletionStatus t u false now).task.status = TaskStatus.failed ∧
      (handleCompletionStatus t u false now).task.errorMessage.isSome = true ∧
      (handleCompletionStatus t u false now).task.attempts = t.attempts) ∧
    ((handleCompletionStatus t u relocOk now).task.status = TaskStatus.completed →
      relocOk = true) := by
  refine ⟨?_, ?_, ?_⟩
  · intro h
    simp [handleCompletionStatus, h, updateTaskStatus, recordError]
  · intro f h
    simp [handleCompletionStatus, h, updateTaskStatus, recordError]
  · intro h
    by_contra hfalse
    have hrel : relocOk = false := by
      cases relocOk
      · rfl
      · exact absurd rfl hfalse
    subst hrel
    cases hu : u.tempFile with
    | none => simp [handleCompletionStatus, hu, updateTaskStatus, recordError] at h
    | some f => simp [handleCompletionStatus, hu, updateTaskStatus, recordError] at h

/-- C4 amended witness: concrete completed callbacks, one lacking the temp
file and one whose relocation fails, both end failed with attempts
unchanged. -/
theorem c4_relocation_failure_amended_witness :
    (mkUpdate 1 "completed" none none none).tempFile = none ∧
    (handleCompletionStatus startedTask
      (mkUpdate 1 "completed" none none none) true 12).task.status = TaskStatus.failed ∧
    (mkUpdate 1 "completed" (some "Movie A.mkv") none none).tempFile = some "Movie A.mkv" ∧
    (handleCompletionStatus startedTask
      (mkUpdate 1 "completed" (some "Movie A.mkv") none none) false 12).task.attempts
      = startedTask.attempts := by
  refine ⟨rfl, ?_, rfl, ?_⟩
  · exact ((c4_relocation_failure_amended startedTask
      (mkUpdate 1 "completed" none none none) true 12).1 rfl).1
  · exact (((c4_relocation_failure_amended startedTask
      (mkUpdate 1 "completed" (some "Movie A.mkv") none none) false 12).2.1)
      "Movie A.mkv" rfl).2.2

/-- C7 counterexample: a task in sent whose updated_at (0) is far older than
any staleness threshold is not returned to pending by the only
reconciliation mechanism present, the worker shutdown sweep (it touches only
processing tasks); and the scheduler registers no periodic reconciliation
job at all, only the directory scan, the database cleanup and the health
check. -/
theorem c7_stale_sent_counterexample :
    ({ baseTask with status := TaskStatus.sent } : Task).updatedAt = 0 ∧
    workerShutdownSweep [{ baseTask with status := TaskStatus.sent }] 1000
      = [{ baseTask with status := TaskStatus.sent }] ∧
    schedulerJobs = [ScheduledJob.directoryScan, ScheduledJob.databaseCleanup,
      ScheduledJob.healthCheck] := by
  decide

/-- C7 amended: the only reconciliation mechanism is the worker shutdown
notification handler; it returns every processing task, regardless of how
stale its updated_at is, to pending with attempts unchanged, and it leaves
every task not in processing (including stale sent tasks) untouched. There
is no periodic staleness-based reconciliation. -/
theorem c7_shutdown_sweep_amended (store : List Task) (now : Nat) (t : Task)
    (h : t ∈ store) :
    (t.status = TaskStatus.processing →
      updateTaskStatus t TaskStatus.pending now none none none none ∈
        workerShutdownSweep store now ∧
      (updateTaskStatus t TaskStatus.pending now none none none none).status
        = TaskStatus.pending ∧
      (updateTaskStatus t TaskStatus.pending now none none none none).attempts
        = t.attempts) ∧
    (t.status ≠ TaskStatus.processing → t ∈ workerShutdownSweep store now) := by
  constructor
  · intro hp
    refine ⟨?_, ?_, ?_⟩
    · have hmem := List.mem_map_of_mem
        (fun x => if x.status = TaskStatus.processing then
          updateTaskStatus x TaskStatus.pending now none none none none else x) h
      simpa [workerShutdownSweep, hp] using hmem
    · simp [updateTaskStatus]
    · simp [updateTaskStatus]
  · intro hp
    have hmem := List.mem_map_of_mem
      (fun x => if x.status = TaskStatus.processing then
        updateTaskStatus x TaskStatus.pending now none none none none else x) h
    simpa [workerShutdownSweep, hp] using hmem

/-- C7 amended witness: on concrete one-task stores, the sweep returns the
processing task to pending with attempts unchanged and leaves a sent task
untouched. -/
theorem c7_shutdown_sweep_amended_witness :
    (updateTaskStatus startedTask TaskStatus.pending 1000 none none none none ∈
      workerShutdownSweep [startedTask] 1000 ∧
     (updateTaskStatus startedTask TaskStatus.pending 1000 none none none none).status
      = TaskStatus.pending ∧
     (updateTaskStatus startedTask TaskStatus.pending 1000 none none none none).attempts
      = startedTask.attempts) ∧
    ({ baseTask with status := TaskStatus.sent } : Task) ∈
      workerShutdownSweep [{ baseTask with status := TaskStatus.sent }] 1000 := by
  constructor
  · exact (c7_shutdown_sweep_amended [startedTask] 1000 startedTask (by decide)).1 (by decide)
  · exact (c7_shutdown_sweep_amended [{ baseTask with status := TaskStatus.sent }] 1000
      { baseTask with status := TaskStatus.sent } (by decide)).2 (by decide)

/-- C8 counterexample: from a store of two freshly created pending tasks,
two processing callbacks (which the webhook applies to any existing task
without checking other statuses) reach a store in which both tasks are
simultaneously in processing, so the count of sent plus processing tasks is
2, exceeding the worker concurrency limit of 1. -/
theorem c8_two_processing_counterexample :
    ReachableSys c8Init c8Final ∧
    c8Final.countP (fun t => t.status == TaskStatus.processing) = 2 ∧
    c8Final.countP (fun t =>
      t.status == TaskStatus.sent || t.status == TaskStatus.processing) = 2 := by
  refine ⟨?_, by decide, by decide⟩
  have h1 : SysStep c8Init c8Mid :=
    SysStep.statusReport c8Init (mkUpdate 1 "processing" none none none) true 31
  have h2 : SysStep c8Mid c8Final :=
    SysStep.statusReport c8Mid (mkUpdate 2 "processing" none none none) true 32
  exact Relation.ReflTransGen.tail (Relation.ReflTransGen.single h1) h2

/-- C8 amended: the dispatcher only ever selects tasks whose status is
pending (so a task already sent or processing is never re-dispatched), but
no component bounds the number of tasks in sent or processing: the status
receiver sets any reported task to processing regardless of the statuses of
the other tasks, so stores with two processing tasks are reachable. -/
theorem c8_concurrency_amended (store : List Task) (limit : Option Nat) (t : Task)
    (h : t ∈ getPendingTasks store limit) (t2 : Task) (u : StatusUpdateRequest) (now : Nat) :
    t.status = TaskStatus.pending ∧
    (handleProcessingStatus t2 u now).status = TaskStatus.processing := by
  constructor
  · have hfilter : t ∈ store.filter (fun x => x.status == TaskStatus.pending) := by
      cases limit with
      | some n =>
          exact (List.mem_insertionSort pendingOrder).1
            (List.take_subset n _ h)
      | none =>
          exact (List.mem_insertionSort pendingOrder).1 h
    simpa using (List.mem_filter.mp hfilter).2
  · cases hu : u.progressPercent with
    | none =>
        by_cases hstart : t2.processingStartedAt = none <;>
          simp [handleProcessingStatus, hu, hstart, updateTaskStatus, setProcessingStarted]
    | some p =>
        by_cases hstart : t2.processingStartedAt = none <;>
          simp [handleProcessingStatus, hu, hstart, updateTaskStatus, setProcessingStarted,
            updateTaskProgress]

/-- C8 amended witness: the single pending task of a concrete store is
selected with status pending, and a processing report sets a completed task
to processing. -/
theorem c8_concurrency_amended_witness :
    baseTask.status = TaskStatus.pending ∧
    (handleProcessingStatus { baseTask with status := TaskStatus.completed }
      (mkUpdate 1 "processing" none none none) 9).status = TaskStatus.processing := by
  exact c8_concurrency_amended [baseTask] (some 1) baseTask (by decide)
    { baseTask with status := TaskStatus.completed }
    (mkUpdate 1 "processing" none none none) 9

end BlurayConverter
